import Mathlib

/-!
Verification of the LNURL handling core of lntxbot against its specification.

The Go sources under scrutiny are the LNURL flow dispatcher and settlement code
(handleLNURL, lnurlpayFetchInvoiceAndPay) and the helper module (parseSatoshis,
calculateHash, waitPaymentSuccess, resolveWaitingPaymentSuccess,
checkProxyBalance).  External collaborators (HTTP, chat transport, the bolt11
decoder, the payment engine, the signature library) are modelled as oracle
fields of an environment record, while every piece of logic owned by the
repository is translated directly.
-/

set_option maxRecDepth 8000
set_option linter.unusedVariables false

namespace Lntxbot

/-! SHA-256 over byte lists, modelling crypto/sha256 as used by calculateHash
and by the lnurl-auth seed derivation.  Words are Nat, reduced modulo 2^32. -/

def w32 (n : Nat) : Nat := n % 4294967296

def rotr32 (n x : Nat) : Nat := w32 ((x >>> n) ||| (x <<< (32 - n)))

def shaK : List Nat :=
  [1116352408, 1899447441, 3049323471, 3921009573, 961987163,
   1508970993, 2453635748, 2870763221, 3624381080, 310598401,
   607225278, 1426881987, 1925078388, 2162078206, 2614888103,
   3248222580, 3835390401, 4022224774, 264347078, 604807628,
   770255983, 1249150122, 1555081692, 1996064986, 2554220882,
   2821834349, 2952996808, 3210313671, 3336571891, 3584528711,
   113926993, 338241895, 666307205, 773529912, 1294757372,
   1396182291, 1695183700, 1986661051, 2177026350, 2456956037,
   2730485921, 2820302411, 3259730800, 3345764771, 3516065817,
   3600352804, 4094571909, 275423344, 430227734, 506948616,
   659060556, 883997877, 958139571, 1322822218, 1537002063,
   1747873779, 1955562222, 2024104815, 2227730452, 2361852424,
   2428436474, 2756734187, 3204031479, 3329325298]

def shaInit : List Nat :=
  [1779033703, 3144134277, 1013904242, 2773480762, 1359893119,
   2600822924, 528734635, 1541459225]

def be64 (n : Nat) : List Nat :=
  [(n >>> 56) % 256, (n >>> 48) % 256, (n >>> 40) % 256, (n >>> 32) % 256,
   (n >>> 24) % 256, (n >>> 16) % 256, (n >>> 8) % 256, n % 256]

def shaPad (msg : List Nat) : List Nat :=
  let len := msg.length
  let zeros := (119 - (len % 64)) % 64
  msg ++ 0x80 :: List.replicate zeros 0 ++ be64 (len * 8)

def bytesToWords (bs : List Nat) : List Nat :=
  (List.range (bs.length / 4)).map (fun i =>
    ((bs.getD (4 * i) 0 * 256 + bs.getD (4 * i + 1) 0) * 256
      + bs.getD (4 * i + 2) 0) * 256 + bs.getD (4 * i + 3) 0)

def shaSchedule (block : List Nat) : List Nat :=
  (List.range 48).foldl (fun w i =>
    let t := i + 16
    let x15 := w.getD (t - 15) 0
    let x2 := w.getD (t - 2) 0
    let s0 := (rotr32 7 x15) ^^^ (rotr32 18 x15) ^^^ (x15 >>> 3)
    let s1 := (rotr32 17 x2) ^^^ (rotr32 19 x2) ^^^ (x2 >>> 10)
    w ++ [w32 (w.getD (t - 16) 0 + s0 + w.getD (t - 7) 0 + s1)]) block

def shaRound (st : List Nat) (k wv : Nat) : List Nat :=
  match st with
  | [a, b, c, d, e, f, g, hh] =>
    let s1 := (rotr32 6 e) ^^^ (rotr32 11 e) ^^^ (rotr32 25 e)
    let ch := (e &&& f) ^^^ ((4294967295 ^^^ e) &&& g)
    let temp1 := w32 (hh + s1 + ch + k + wv)
    let s0 := (rotr32 2 a) ^^^ (rotr32 13 a) ^^^ (rotr32 22 a)
    let maj := (a &&& b) ^^^ (a &&& c) ^^^ (b &&& c)
    let temp2 := w32 (s0 + maj)
    [w32 (temp1 + temp2), a, b, c, w32 (d + temp1), e, f, g]
  | other => other

def shaCompress (h : List Nat) (block : List Nat) : List Nat :=
  let ws := shaSchedule block
  let fin := (shaK.zip ws).foldl (fun st kw => shaRound st kw.1 kw.2) h
  (h.zip fin).map (fun p => w32 (p.1 + p.2))

def sha256 (msg : List Nat) : List Nat :=
  let padded := shaPad msg
  let ws := bytesToWords padded
  let nblocks := ws.length / 16
  let blocks := (List.range nblocks).map (fun b =>
    (List.range 16).map (fun j => ws.getD (16 * b + j) 0))
  let hfin := blocks.foldl shaCompress shaInit
  (hfin.map (fun v => [(v >>> 24) % 256, (v >>> 16) % 256, (v >>> 8) % 256, v % 256])).flatten

/-! Hex rendering (lowercase, as produced by fmt.Sprintf with the x verb) and
hex decoding (encoding/hex.DecodeString). -/

def hexDigitChars : List Char := "0123456789abcdef".data

def byteToHex (b : Nat) : List Char :=
  [hexDigitChars.getD (b / 16 % 16) '0', hexDigitChars.getD (b % 16) '0']

def bytesToHex (bs : List Nat) : String := String.mk ((bs.map byteToHex).flatten)

def hexDigitVal (c : Char) : Option Nat :=
  if '0' ≤ c ∧ c ≤ '9' then some (c.toNat - 48)
  else if 'a' ≤ c ∧ c ≤ 'f' then some (c.toNat - 87)
  else if 'A' ≤ c ∧ c ≤ 'F' then some (c.toNat - 55)
  else none

def hexDecodeAux : List Char → Option (List Nat)
  | [] => some []
  | [_] => none
  | c1 :: c2 :: rest =>
    match hexDigitVal c1, hexDigitVal c2, hexDecodeAux rest with
    | some hi, some lo, some bs => some ((hi * 16 + lo) :: bs)
    | _, _, _ => none

/-- Model of encoding/hex DecodeString: fails on odd length or a non-hex byte. -/
def hexDecode (s : String) : Option (List Nat) := hexDecodeAux s.data

def hexDecodeLooseAux : List Char → List Nat
  | c1 :: c2 :: rest =>
    (match hexDigitVal c1, hexDigitVal c2 with
     | some hi, some lo => (hi * 16 + lo) :: hexDecodeLooseAux rest
     | _, _ => [])
  | _ => []

/-- Model of encoding/hex DecodeString when the caller drops the error: the
bytes decoded before the first failure. -/
def hexDecodeLoose (s : String) : List Nat := hexDecodeLooseAux s.data

/-! UTF-8 byte sequence of a string, matching how Go views a string as raw
bytes when hashing it. -/

def utf8EncodeScalar (n : Nat) : List Nat :=
  if n < 128 then [n]
  else if n < 2048 then [192 ||| (n >>> 6), 128 ||| (n &&& 63)]
  else if n < 65536 then
    [224 ||| (n >>> 12), 128 ||| ((n >>> 6) &&& 63), 128 ||| (n &&& 63)]
  else
    [240 ||| (n >>> 18), 128 ||| ((n >>> 12) &&& 63),
     128 ||| ((n >>> 6) &&& 63), 128 ||| (n &&& 63)]

def utf8Bytes (s : String) : List Nat :=
  (s.data.map (fun c => utf8EncodeScalar c.toNat)).flatten

/-- helpers.go calculateHash: lowercase hex of the SHA-256 of the raw bytes of
the argument string. -/
def calculateHash (data : String) : String := bytesToHex (sha256 (utf8Bytes data))

example : bytesToHex (sha256 []) =
    "e3b0c44298fc1c149afbf4c8996fb92427ae41e4649b934ca495991b7852b855" := by decide

example : calculateHash "abc" =
    "ba7816bf8f01cfea414140de5dae2223b00361a396177a9cb410ff61f20015ad" := by decide

example : hexDecode "0aff" = some [10, 255] := by decide

example : hexDecode "0af" = none := by decide

example : hexDecode "0g" = none := by decide

/-! Payment confirmation broker (helpers.go waitPaymentSuccess and
resolveWaitingPaymentSuccess).  The concurrent map waitingPaymentSuccesses is
a list of hash keyed entries holding the waiter channels in registration
order.  A channel is modelled by an identifier into a waiter store; the
receiving flag says whether the owning goroutine is blocked on a receive at
resolution time (a select with a default branch on an unbuffered channel
succeeds exactly in that case), and received records a delivered value. -/

structure Waiter where
  receiving : Bool
  received : Option String
deriving DecidableEq, Repr

structure BrokerState where
  registry : List (String × List Nat)
  waiters : Nat → Option Waiter
  nextId : Nat

def emptyBroker : BrokerState :=
  { registry := [], waiters := fun _ => none, nextId := 0 }

def lookupHash (hash : String) : List (String × List Nat) → Option (List Nat)
  | [] => none
  | p :: t => if p.1 = hash then some p.2 else lookupHash hash t

def appendWaiter (hash : String) (wid : Nat) : List (String × List Nat) →
    List (String × List Nat)
  | [] => []
  | p :: t =>
    if p.1 = hash then (p.1, p.2 ++ [wid]) :: appendWaiter hash wid t
    else p :: appendWaiter hash wid t

def removeHash (hash : String) : List (String × List Nat) → List (String × List Nat)
  | [] => []
  | p :: t => if p.1 = hash then removeHash hash t else p :: removeHash hash t

/-- helpers.go waitPaymentSuccess: make a fresh channel and Upsert it onto the
list registered under the hash (append when the entry exists, else create a
singleton entry); the channel handle is returned without blocking. -/
def waitPaymentSuccess (hash : String) (s : BrokerState) : Nat × BrokerState :=
  let wid := s.nextId
  let registry :=
    match lookupHash hash s.registry with
    | some _ => appendWaiter hash wid s.registry
    | none => s.registry ++ [(hash, [wid])]
  (wid,
   { registry := registry,
     waiters := fun i =>
       if i = wid then some { receiving := false, received := none } else s.waiters i,
     nextId := wid + 1 })

/-- The owning task blocks on a receive from its channel (this is the state a
goroutine is in right after evaluating the arrow receive operator). -/
def startReceiving (wid : Nat) (s : BrokerState) : BrokerState :=
  { s with
    waiters := fun i =>
      if i = wid then (s.waiters i).map (fun w => { w with receiving := true })
      else s.waiters i }

def applyReceiving (b : Bool) (wid : Nat) (s : BrokerState) : BrokerState :=
  if b then startReceiving wid s else s

/-- A select with a default branch sending on an unbuffered channel: delivers
only when the receiver is actively receiving, otherwise skips the waiter. -/
def deliverPreimage (preimage : String) (w : Waiter) : Waiter :=
  if w.receiving then { receiving := false, received := some preimage } else w

/-- helpers.go resolveWaitingPaymentSuccess: when an entry for the hash
exists, attempt a non blocking send of the preimage to every registered
channel and then Remove the registry entry; with no entry, do nothing. -/
def resolveWaitingPaymentSuccess (hash preimage : String) (s : BrokerState) : BrokerState :=
  match lookupHash hash s.registry with
  | none => s
  | some ids =>
    { registry := removeHash hash s.registry,
      waiters := fun i =>
        if i ∈ ids then (s.waiters i).map (deliverPreimage preimage)
        else s.waiters i,
      nextId := s.nextId }

/-- Well formedness of the broker state: every channel identifier registered
under some hash was created earlier than the next fresh identifier. -/
def BrokerWF (s : BrokerState) : Prop :=
  ∀ p ∈ s.registry, ∀ i ∈ p.2, i < s.nextId

/-! Ledger clearing account check (helpers.go checkProxyBalance).  The SQL
query sums amount minus fees over the ledger rows of the proxy account; a
failed query propagates its error, a non zero balance is an error, zero is
accepted. -/

structure AccountTxn where
  amount : Int
  fees : Int
deriving DecidableEq, Repr

def proxyBalanceQuery (entries : List AccountTxn) : Int :=
  (entries.map AccountTxn.amount).sum - (entries.map AccountTxn.fees).sum

def checkProxyBalance (queryResult : Except String (List AccountTxn)) : Option String :=
  match queryResult with
  | .error e => some e
  | .ok entries =>
    let proxybalance := proxyBalanceQuery entries
    if proxybalance ≠ 0 then some "proxy balance isn\x27t 0" else none

example : checkProxyBalance (.ok [⟨100, 40⟩, ⟨-60, 0⟩]) = none := by decide

/-! Satoshi amount parsing (helpers.go parseSatoshis and menuItems). -/

def menuItems : List (String × Int) :=
  [("popcorn", 27), ("piparote", 88), ("banana", 777)]

def isDigitChar (c : Char) : Bool := '0' ≤ c && c ≤ '9'

/-- Model of strconv.Atoi on a 64 bit platform: an optional single sign
followed by at least one decimal digit, with the result required to fit in a
signed 64 bit integer; anything else is an error. -/
def goAtoi (s : String) : Option Int :=
  let (neg, digits) :=
    match s.data with
    | '-' :: rest => (true, rest)
    | '+' :: rest => (false, rest)
    | cs => (false, cs)
  if digits.isEmpty then none
  else if digits.all isDigitChar then
    let n : Nat := digits.foldl (fun acc c => acc * 10 + (c.toNat - 48)) 0
    let v : Int := if neg then -(n : Int) else (n : Int)
    if -(2 ^ 63) ≤ v ∧ v ≤ 2 ^ 63 - 1 then some v else none
  else none

/-- helpers.go parseSatoshis: Atoi first, then the menu of varieties, else an
error with a zero amount.  The docopt option being absent is the first error
case.  The Int component models the Go sats return value, the Option String
component the error. -/
def parseSatoshis (satoshisOpt : Option String) : Int × Option String :=
  match satoshisOpt with
  | none => (0, some "\x27satoshis\x27 param missing")
  | some amt =>
    match goAtoi amt with
    | some sats => (sats, none)
    | none =>
      match menuItems.find? (fun p => p.1 == amt) with
      | some p => (p.2, none)
      | none => (0, some "\x27satoshis\x27 param invalid")

example : parseSatoshis (some "123") = (123, none) := by decide

example : parseSatoshis (some "-7") = (-7, none) := by decide

example : parseSatoshis (some "banana") = (777, none) := by decide

example : parseSatoshis (some "mango") = (0, some "\x27satoshis\x27 param invalid") := by decide

example : parseSatoshis (some "12x") = (0, some "\x27satoshis\x27 param invalid") := by decide

example : parseSatoshis (some "") = (0, some "\x27satoshis\x27 param invalid") := by decide

example : parseSatoshis none = (0, some "\x27satoshis\x27 param missing") := by decide

example : goAtoi "9223372036854775807" = some 9223372036854775807 := by decide

example : goAtoi "9223372036854775808" = none := by decide

/-! The LNURL flows.  External collaborators are oracle fields of an Env
record: HTTP responses, the bolt11 decoder, the wallet, the payment engine,
the chat transport and the secp256k1 signature routines of btcec (the latter
as unspecified deterministic functions, since only their determinism matters
to the flows).  Each flow is translated into a function from this environment
to the ordered list of its observable events plus an outcome. -/

structure LNURLResponse where
  status : String
  reason : String
deriving DecidableEq, Repr

structure SuccessAction where
  tag : String
  message : String
  description : String
  url : String
deriving DecidableEq, Repr

structure LNURLPayResponse2 where
  status : String
  reason : String
  pr : String
  successAction : Option SuccessAction
deriving DecidableEq, Repr

structure Invoice where
  msatoshi : Int
  descriptionHash : String
  paymentHash : String
deriving DecidableEq, Repr

inductive NapResult (β : Type) where
  | netError (msg : String)
  | response (status : Nat) (body : β)
deriving DecidableEq, Repr

inductive FetchError where
  | lnurlErrorResponse (host reason : String)
  | generic (msg : String)
deriving DecidableEq, Repr

inductive LNURLParams where
  | authParams (host k1 callback : String)
  | withdrawResponse (callback callbackHost k1 : String)
      (maxWithdrawable : Int) (defaultDescription : String)
  | payResponse1 (callback callbackHost : String) (minSendable maxSendable : Int)
      (encodedMetadata : String) (metadataHasImage : Bool)
  | unsupported
deriving DecidableEq, Repr

inductive Notif where
  | errorN (err : String)
  | lnurlError (host reason : String)
  | authSuccess (host pubkey : String)
  | unsupported
  | paySuccess (domain text urlField : String) (decipherError : Option String)
deriving DecidableEq, Repr

inductive Event where
  | notify (n : Notif)
  | notifyAsReply (n : Notif) (replyTo : Int)
  | track (eventName : String)
  | httpGet (urlStr : String) (params : List (String × String))
  | tgsendPrompt (fixedAmount : Int) (withImage : Bool)
  | redisSet (key : String) (ttlHours : Nat)
  | sendProcessing (pr : String)
  | deleteMessage (id : Int)
  | payInvoice (pr : String)
  | waitPayment (hash : String)
  | sendDocument (filename contents captionHost captionLnurl captionHash captionHashFirst : String)
  | sleepSeconds (n : Nat)
deriving DecidableEq, Repr

inductive ErrStage where
  | fetchFailure
  | k1HexInvalid
  | signFailure
  | callbackNetErr
  | callbackBadStatus
  | callbackServerError
  | makeInvoiceFailure
  | invoiceDecodeFailure
  | descriptionHashMismatch
  | amountMismatch
  | payInvoiceFailure
  | promptSendFailure
  | unsupported
deriving DecidableEq, Repr

inductive Outcome where
  | ok
  | errored (stage : ErrStage)
deriving DecidableEq, Repr

structure User where
  id : Int

structure HandleLNURLOpts where
  messageId : Int
  loginSilently : Bool
  payWithoutPromptIf : Option Int

structure Env where
  botToken : String
  handleLNURLResult : Except FetchError LNURLParams
  sign : List Nat → List Nat → Except String (List Nat)
  serializeCompressed : List Nat → List Nat
  authCallbackResult : NapResult LNURLResponse
  makeInvoiceResult : Except String String
  withdrawCallbackResult : NapResult LNURLResponse
  payCallbackResult : NapResult LNURLPayResponse2
  decodepayResult : Except String Invoice
  payInvoiceResult : Except String String
  sendMessageId : Int
  tgsendResult : Except String Int
  confirmation : Option String
  decipher : List Nat → Except String String
  lnurlEncode : String → String
  parseURLHost : String → Option String

/-- Fixed stand in for the message text of an encoding/hex decode error. -/
def hexErrMsg : String := "encoding/hex: invalid input"

/-- The lnurl-auth signing key seed: the SHA-256 of the string built from the
domain separation label, the remote host, the user id and the bot secret.
btcec PrivKeyFromBytes keeps these bytes as the private scalar. -/
def lnurlAuthSeedHash (host : String) (userId : Int) (botToken : String) : List Nat :=
  sha256 (utf8Bytes ("lnurlkeyseed:" ++ host ++ ":" ++ toString userId ++ ":" ++ botToken))

/-- The LNURLAuthParams arm of handleLNURL: derive the key, hex decode the
challenge, sign it, submit signature and compressed public key to the
callback, then report the outcome (silently when loginSilently is set). -/
def authFlow (env : Env) (u : User) (host k1 callback : String)
    (opts : HandleLNURLOpts) : List Event × Outcome :=
  let seedhash := lnurlAuthSeedHash host u.id env.botToken
  match hexDecode k1 with
  | none => ([.notify (.errorN hexErrMsg)], .errored .k1HexInvalid)
  | some k1bytes =>
    match env.sign seedhash k1bytes with
    | .error e => ([.notify (.errorN e)], .errored .signFailure)
    | .ok sigbytes =>
      let signature := bytesToHex sigbytes
      let pubkey := bytesToHex (env.serializeCompressed seedhash)
      let getEv := Event.httpGet callback [("sig", signature), ("key", pubkey)]
      match env.authCallbackResult with
      | .netError e => ([getEv, .notify (.errorN e)], .errored .callbackNetErr)
      | .response status body =>
        if status ≥ 300 then
          ([getEv, .notify (.errorN
              ("Got status " ++ toString status ++ " on callback " ++ callback))],
           .errored .callbackBadStatus)
        else if body.status = "ERROR" then
          ([getEv, .notify (.lnurlError host body.reason)], .errored .callbackServerError)
        else if opts.loginSilently then
          ([getEv], .ok)
        else
          ([getEv, .notify (.authSuccess host pubkey), .track "lnurl-auth"], .ok)

/-- The LNURLWithdrawResponse arm of handleLNURL: make a wallet invoice for
the whole withdrawable amount, submit it to the callback, report outcome and
track the withdrawal. -/
def withdrawFlow (env : Env) (callback callbackHost k1 : String) : List Event × Outcome :=
  match env.makeInvoiceResult with
  | .error e => ([.notify (.errorN e)], .errored .makeInvoiceFailure)
  | .ok bolt11 =>
    let getEv := Event.httpGet callback [("k1", k1), ("pr", bolt11)]
    match env.withdrawCallbackResult with
    | .netError e => ([getEv, .notify (.errorN e)], .errored .callbackNetErr)
    | .response status body =>
      if status ≥ 300 then
        ([getEv, .notify (.errorN
            ("Got status " ++ toString status ++ " on callback " ++ callback))],
         .errored .callbackBadStatus)
      else if body.status = "ERROR" then
        ([getEv, .notify (.lnurlError callbackHost body.reason)], .errored .callbackServerError)
      else
        ([getEv, .track "lnurl-withdraw"], .ok)

/-- The success action switch of the settlement confirmation goroutine: text
for message, description for url, deciphered text (or a decipher error) for
aes, and the zero values for anything else. -/
def successActionResult (env : Env) (sa : SuccessAction) (bpreimage : List Nat) :
    String × Option String :=
  if sa.tag = "message" then (sa.message, none)
  else if sa.tag = "url" then (sa.description, none)
  else if sa.tag = "aes" then
    match env.decipher bpreimage with
    | .ok text => (text, none)
    | .error e => ("", some e)
  else ("", none)

/-- The goroutine spawned after a successful payment submission: register a
waiter for the payment hash, block until the preimage arrives, send the raw
metadata as a captioned document, then, when a success action is attached,
sleep and send the success notification carrying any decipher error. -/
def lnurlpayConfirmationTask (env : Env) (res : LNURLPayResponse2) (inv : Invoice)
    (callback metadata encodedLnurl : String) (messageId : Int) (hash : String) : List Event :=
  Event.waitPayment hash ::
    match env.confirmation with
    | none => []
    | some preimage =>
      let bpreimage := hexDecodeLoose preimage
      let host := (env.parseURLHost callback).getD ""
      let docEv := Event.sendDocument (encodedLnurl ++ ".json") metadata host encodedLnurl
        inv.paymentHash (inv.paymentHash.take 5)
      match res.successAction with
      | none => [docEv]
      | some sa =>
        let outcome := successActionResult env sa bpreimage
        [docEv, Event.sleepSeconds 2,
         Event.notifyAsReply (.paySuccess host outcome.1 sa.url outcome.2) messageId]

/-- lnurlpayFetchInvoiceAndPay: re-encode the LNURL, fetch the second stage
invoice from the callback, validate its description hash and amount, show a
processing message, submit the payment, and either report the synchronous
failure or spawn the confirmation goroutine. -/
def lnurlpayFetchInvoiceAndPay (env : Env) (u : User) (msats : Int)
    (callback metadata encodedLnurl0 : String) (messageId : Int) : List Event × Outcome :=
  let encodedLnurl := env.lnurlEncode encodedLnurl0
  let getEv := Event.httpGet callback [("amount", toString msats)]
  match env.payCallbackResult with
  | .netError e => ([getEv, .notify (.errorN e)], .errored .callbackNetErr)
  | .response status res =>
    if status ≥ 300 then
      ([getEv, .notify (.errorN
          ("Got status " ++ toString status ++ " on callback " ++ callback))],
       .errored .callbackBadStatus)
    else if res.status = "ERROR" then
      let host := (env.parseURLHost callback).getD "<unknown>"
      ([getEv, .notify (.lnurlError host res.reason)], .errored .callbackServerError)
    else
      match env.decodepayResult with
      | .error e => ([getEv, .notify (.errorN e)], .errored .invoiceDecodeFailure)
      | .ok inv =>
        if inv.descriptionHash ≠ calculateHash metadata then
          ([getEv, .notify (.errorN "Got invoice with wrong description_hash")],
           .errored .descriptionHashMismatch)
        else if inv.msatoshi ≠ msats then
          ([getEv, .notify (.errorN "Got invoice with wrong amount.")],
           .errored .amountMismatch)
        else
          let procEv := Event.sendProcessing res.pr
          match env.payInvoiceResult with
          | .error e =>
            ([getEv, procEv, .payInvoice res.pr,
              .notifyAsReply (.errorN e) env.sendMessageId],
             .errored .payInvoiceFailure)
          | .ok hash =>
            ([getEv, procEv, .payInvoice res.pr, .deleteMessage env.sendMessageId]
               ++ lnurlpayConfirmationTask env res inv callback metadata encodedLnurl
                    messageId hash,
             .ok)

/-- handleLNURL fixedAmount computation: the shared amount when the offer is
fixed, zero for a variable amount offer. -/
def lnurlPayFixedAmount (minSendable maxSendable : Int) : Int :=
  if maxSendable = minSendable then maxSendable else 0

/-- Reduction of an integer into the signed 64 bit range, the wrap around
semantics of Go int64 arithmetic. -/
def wrap64 (n : Int) : Int := (n + 2 ^ 63) % 2 ^ 64 - 2 ^ 63

/-- The fast path condition of the LNURLPayResponse1 arm, exactly as written:
a positive fixed amount, a threshold present, and the fixed amount below the
threshold plus the 3000 msat grace margin, where that sum is computed in Go
int64 arithmetic and therefore wraps around near the top of the range. -/
def lnurlPayFastPath (minSendable maxSendable : Int) (payWithoutPromptIf : Option Int) : Bool :=
  let fixedAmount := lnurlPayFixedAmount minSendable maxSendable
  fixedAmount > 0 &&
    match payWithoutPromptIf with
    | some threshold => fixedAmount < wrap64 (threshold + 3000)
    | none => false

/-- The LNURLPayResponse1 arm of handleLNURL: track the offer, then either
pay right away through the fast path or send the interactive prompt and
persist the pending request under the prompt message id.  A failure to send
the prompt is only logged. -/
def payResponse1Flow (env : Env) (u : User) (callback callbackHost : String)
    (minSendable maxSendable : Int) (encodedMetadata : String) (metadataHasImage : Bool)
    (lnurltext : String) (opts : HandleLNURLOpts) : List Event × Outcome :=
  let fixedAmount := lnurlPayFixedAmount minSendable maxSendable
  let trackEv := Event.track "lnurl-pay"
  if lnurlPayFastPath minSendable maxSendable opts.payWithoutPromptIf then
    let settled := lnurlpayFetchInvoiceAndPay env u fixedAmount callback encodedMetadata
      lnurltext opts.messageId
    (trackEv :: settled.1, settled.2)
  else
    match env.tgsendResult with
    | .error _ =>
      ([trackEv, .tgsendPrompt fixedAmount metadataHasImage], .errored .promptSendFailure)
    | .ok sentMessageId =>
      ([trackEv, .tgsendPrompt fixedAmount metadataHasImage,
        .redisSet ("reply:" ++ toString u.id ++ ":" ++ toString sentMessageId) 1],
       .ok)

/-- handleLNURL: resolve the LNURL text to typed parameters and dispatch on
the variant; a decode or fetch failure is reported up front, an unsupported
variant is reported as a reply. -/
def handleLNURL (env : Env) (u : User) (lnurltext : String)
    (opts : HandleLNURLOpts) : List Event × Outcome :=
  match env.handleLNURLResult with
  | .error (.lnurlErrorResponse host reason) =>
    ([.notify (.lnurlError host reason)], .errored .fetchFailure)
  | .error (.generic msg) =>
    ([.notify (.errorN ("failed to fetch lnurl params: " ++ msg))], .errored .fetchFailure)
  | .ok params =>
    match params with
    | .authParams host k1 callback => authFlow env u host k1 callback opts
    | .withdrawResponse callback callbackHost k1 _ _ =>
      withdrawFlow env callback callbackHost k1
    | .payResponse1 callback callbackHost minSendable maxSendable encodedMetadata hasImage =>
      payResponse1Flow env u callback callbackHost minSendable maxSendable encodedMetadata
        hasImage lnurltext opts
    | .unsupported => ([.notifyAsReply .unsupported opts.messageId], .errored .unsupported)

/-! Observation helpers over event traces. -/

def isUserNotif : Event → Bool
  | .notify _ => true
  | .notifyAsReply _ _ => true
  | _ => false

def notifCount (tr : List Event) : Nat := (tr.filter isUserNotif).length

def isPayInvoiceEvent : Event → Bool
  | .payInvoice _ => true
  | _ => false

def isHttpGetEvent : Event → Bool
  | .httpGet _ _ => true
  | _ => false

def isErrorNotifPayload : Notif → Bool
  | .errorN _ => true
  | .lnurlError _ _ => true
  | _ => false

def isErrorNotif : Event → Bool
  | .notify n => isErrorNotifPayload n
  | .notifyAsReply n _ => isErrorNotifPayload n
  | _ => false

def submittedAuthKey (tr : List Event) : Option String :=
  tr.findSome? (fun e =>
    match e with
    | .httpGet _ ps => (ps.find? (fun p => p.1 == "key")).map (fun p => p.2)
    | _ => none)

/-- A concrete environment used to instantiate the universally quantified
theorems on explicit inputs. -/
def baseEnv : Env :=
  { botToken := "token"
    handleLNURLResult := .ok .unsupported
    sign := fun _ _ => .ok [1]
    serializeCompressed := fun _ => [2]
    authCallbackResult := .response 200 ⟨"OK", ""⟩
    makeInvoiceResult := .ok "lnbc1invoice"
    withdrawCallbackResult := .response 200 ⟨"OK", ""⟩
    payCallbackResult := .response 200 ⟨"OK", "", "lnbc1pr", none⟩
    decodepayResult := .ok ⟨1000, "", "ffffaaaa"⟩
    payInvoiceResult := .ok "ffffaaaa"
    sendMessageId := 77
    tgsendResult := .ok 42
    confirmation := some "00ff"
    decipher := fun _ => .ok "plain"
    lnurlEncode := fun s => "lnurl1" ++ s
    parseURLHost := fun _ => some "host.com" }

/-! Claim C6: the ledger clearing account check. -/

def proxyPerturbations : List (List AccountTxn) :=
  [[⟨101, 40⟩, ⟨-60, 0⟩], [⟨99, 40⟩, ⟨-60, 0⟩],
   [⟨100, 41⟩, ⟨-60, 0⟩], [⟨100, 39⟩, ⟨-60, 0⟩],
   [⟨100, 40⟩, ⟨-59, 0⟩], [⟨100, 40⟩, ⟨-61, 0⟩],
   [⟨100, 40⟩, ⟨-60, 1⟩], [⟨100, 40⟩, ⟨-60, -1⟩]]

/-- C6: given a successful ledger query, checkProxyBalance returns nil exactly
when the sum of amounts minus the sum of fees over the clearing account rows
is zero, and an error for every non zero sum; the example rows credit 100 fee
40 and credit -60 fee 0 pass, and every one unit perturbation of any of their
fields fails. -/
theorem checkProxyBalance_zero_iff :
    (∀ entries, checkProxyBalance (.ok entries) = none ↔ proxyBalanceQuery entries = 0)
    ∧ checkProxyBalance (.ok [⟨100, 40⟩, ⟨-60, 0⟩]) = none
    ∧ (∀ es ∈ proxyPerturbations, checkProxyBalance (.ok es) ≠ none) := by
  refine ⟨fun entries => ?_, by decide, by decide⟩
  by_cases h : proxyBalanceQuery entries = 0 <;> simp [checkProxyBalance, h]

/-- C6 witness: the theorem applied at the empty row list and at the first
perturbed example. -/
theorem checkProxyBalance_zero_iff_witness :
    (checkProxyBalance (.ok ([] : List AccountTxn)) = none ↔ proxyBalanceQuery [] = 0)
    ∧ checkProxyBalance (.ok [⟨101, 40⟩, ⟨-60, 0⟩]) ≠ none :=
  ⟨checkProxyBalance_zero_iff.1 [],
   checkProxyBalance_zero_iff.2.2 [⟨101, 40⟩, ⟨-60, 0⟩] (by decide)⟩

/-! Claim C7: resolving with no registered waiters is a no-op. -/

/-- C7: for a payment hash with no registered waiters,
resolveWaitingPaymentSuccess signals no error (its codomain has none) and
returns the broker state unchanged: registry, waiter store and counter all
stay as they were. -/
theorem resolveWaitingPaymentSuccess_no_waiters_noop (hash preimage : String)
    (s : BrokerState) (h : lookupHash hash s.registry = none) :
    resolveWaitingPaymentSuccess hash preimage s = s := by
  simp [resolveWaitingPaymentSuccess, h]

/-- C7 witness: the theorem applied to the empty broker. -/
theorem resolveWaitingPaymentSuccess_no_waiters_noop_witness :
    lookupHash "ff00" emptyBroker.registry = none ∧
    resolveWaitingPaymentSuccess "ff00" "aa" emptyBroker = emptyBroker :=
  ⟨rfl, resolveWaitingPaymentSuccess_no_waiters_noop "ff00" "aa" emptyBroker rfl⟩

/-! Claim C10: parseSatoshis. -/

/-- C10: parseSatoshis accepts every decimal integer string strconv.Atoi
accepts, and besides those exactly the three menu strings popcorn, piparote
and banana with values 27, 88 and 777; every other non numeric string gives
an error with 0 satoshis, as does a missing parameter. -/
theorem parseSatoshis_spec :
    (∀ s v, goAtoi s = some v → parseSatoshis (some s) = (v, none))
    ∧ (∀ s, goAtoi s = none →
        parseSatoshis (some s) =
          if s = "popcorn" then (27, none)
          else if s = "piparote" then (88, none)
          else if s = "banana" then (777, none)
          else (0, some "\x27satoshis\x27 param invalid"))
    ∧ goAtoi "popcorn" = none ∧ goAtoi "piparote" = none ∧ goAtoi "banana" = none
    ∧ parseSatoshis none = (0, some "\x27satoshis\x27 param missing") := by
  refine ⟨fun s v h => by simp [parseSatoshis, h], fun s h => ?_, by decide, by decide,
    by decide, rfl⟩
  by_cases h1 : s = "popcorn"
  · subst h1; decide
  by_cases h2 : s = "piparote"
  · subst h2; decide
  by_cases h3 : s = "banana"
  · subst h3; decide
  simp only [parseSatoshis, h, menuItems, List.find?]
  rw [if_neg h1, if_neg h2, if_neg h3]
  rw [show (("popcorn" == s) = false) from beq_eq_false_iff_ne.mpr (Ne.symm h1),
      show (("piparote" == s) = false) from beq_eq_false_iff_ne.mpr (Ne.symm h2),
      show (("banana" == s) = false) from beq_eq_false_iff_ne.mpr (Ne.symm h3)]

/-- C10 witness: the theorem applied at a numeric string, a menu string and a
plain invalid string. -/
theorem parseSatoshis_spec_witness :
    parseSatoshis (some "21") = (21, none)
    ∧ parseSatoshis (some "banana") =
        (if "banana" = "popcorn" then (27, none)
         else if "banana" = "piparote" then (88, none)
         else if "banana" = "banana" then (777, none)
         else (0, some "\x27satoshis\x27 param invalid"))
    ∧ parseSatoshis (some "mango") =
        (if "mango" = "popcorn" then (27, none)
         else if "mango" = "piparote" then (88, none)
         else if "mango" = "banana" then (777, none)
         else (0, some "\x27satoshis\x27 param invalid")) :=
  ⟨parseSatoshis_spec.1 "21" 21 (by decide),
   parseSatoshis_spec.2.1 "banana" (by decide),
   parseSatoshis_spec.2.1 "mango" (by decide)⟩

/-! Claim C4: the no-prompt fast path condition. -/

/-- C4 counterexample: for the offer with MaxSendable = MinSendable = 0 and
threshold 0, the condition claimed to be equivalent to the fast path
(MaxSendable equals MinSendable and fixedAmount below threshold + 3000)
holds, yet the code does not take the fast path, because it also requires a
strictly positive fixed amount. -/
theorem lnurlPayFastPath_claim_counterexample :
    ((0 : Int) = 0 ∧ lnurlPayFixedAmount 0 0 < 0 + 3000)
    ∧ lnurlPayFastPath 0 0 (some 0) = false := by decide

/-- C4 amended: the fast path is taken exactly when the offer amount is fixed
(MaxSendable equals MinSendable), the fixed amount is strictly positive, a
payWithoutPromptIf threshold is present, and the fixed amount is below the
sum threshold plus 3000 millisatoshi computed in wrapping int64 arithmetic;
in particular a variable amount offer always goes to the prompt, whatever the
threshold, and a fixed offer with a threshold within 3000 of the top of the
int64 range also prompts, because the sum wraps negative. -/
theorem lnurlPayFastPath_iff :
    (∀ (minS maxS : Int) (thr : Option Int),
      lnurlPayFastPath minS maxS thr = true ↔
        maxS = minS ∧ 0 < lnurlPayFixedAmount minS maxS ∧
          ∃ t, thr = some t ∧ lnurlPayFixedAmount minS maxS < wrap64 (t + 3000))
    ∧ (∀ (env : Env) (u : User) (cb cbh : String) (minS maxS : Int)
        (meta : String) (hasImg : Bool) (l : String) (opts : HandleLNURLOpts),
        maxS ≠ minS →
        ∃ evs, (payResponse1Flow env u cb cbh minS maxS meta hasImg l opts).1 =
          Event.track "lnurl-pay" ::
            Event.tgsendPrompt (lnurlPayFixedAmount minS maxS) hasImg :: evs)
    ∧ lnurlPayFastPath 1000 1000 (some (2 ^ 63 - 1)) = false := by
  refine ⟨?_, ?_, by decide⟩
  · intro minS maxS thr
    by_cases hm : maxS = minS
    · cases thr with
      | none => simp [lnurlPayFastPath, lnurlPayFixedAmount, hm]
      | some t =>
        simp only [lnurlPayFastPath, lnurlPayFixedAmount, if_pos hm, Bool.and_eq_true,
          decide_eq_true_eq]
        constructor
        · rintro ⟨h1, h2⟩
          exact ⟨hm, h1, t, rfl, h2⟩
        · rintro ⟨-, h1, t2, ht, h2⟩
          cases ht
          exact ⟨h1, h2⟩
    · have hf : lnurlPayFastPath minS maxS thr = false := by
        cases thr <;> simp [lnurlPayFastPath, lnurlPayFixedAmount, hm]
      simp [hf, hm]
  · intro env u cb cbh minS maxS meta hasImg l opts hm
    have hf : lnurlPayFastPath minS maxS opts.payWithoutPromptIf = false := by
      cases h : opts.payWithoutPromptIf <;>
        simp [lnurlPayFastPath, lnurlPayFixedAmount, hm]
    cases ht : env.tgsendResult with
    | error e => exact ⟨[], by simp [payResponse1Flow, hf, ht]⟩
    | ok sentId =>
      exact ⟨[.redisSet ("reply:" ++ toString u.id ++ ":" ++ toString sentId) 1],
        by simp [payResponse1Flow, hf, ht]⟩

/-- C4 witness: the amended theorem applied at a fixed 1000 msat offer with
threshold 0 (fast path taken) and at a variable offer (prompt sent). -/
theorem lnurlPayFastPath_iff_witness :
    (lnurlPayFastPath 1000 1000 (some 0) = true ↔
      (1000 : Int) = 1000 ∧ 0 < lnurlPayFixedAmount 1000 1000 ∧
        ∃ t, (some 0 : Option Int) = some t ∧
          lnurlPayFixedAmount 1000 1000 < wrap64 (t + 3000))
    ∧ ∃ evs, (payResponse1Flow baseEnv ⟨9⟩ "cb" "host" 1000 2000 "meta" false "l"
        ⟨5, false, some 0⟩).1 =
        Event.track "lnurl-pay" ::
          Event.tgsendPrompt (lnurlPayFixedAmount 1000 2000) false :: evs :=
  ⟨lnurlPayFastPath_iff.1 1000 1000 (some 0),
   lnurlPayFastPath_iff.2.1 baseEnv ⟨9⟩ "cb" "host" 1000 2000 "meta" false "l"
     ⟨5, false, some 0⟩ (by decide)⟩

/-! Claim C2: what the auth signing key depends on. -/

theorem submittedAuthKey_cons_httpGet (cb sig key : String) (rest : List Event) :
    submittedAuthKey (Event.httpGet cb [("sig", sig), ("key", key)] :: rest) = some key := rfl

/-- C2 counterexample: the auth seed hash, which btcec keeps verbatim as the
private key scalar, differs between two hosts for the same user id and the
same bot secret, so the derived key is not a function of user id and server
secret alone. -/
theorem lnurlAuthSeedHash_host_dependent :
    lnurlAuthSeedHash "a.com" 1 "token" ≠ lnurlAuthSeedHash "b.com" 1 "token" := by decide

/-- C2 amended: the auth signing key is a pure function of the remote host,
the user id and the bot secret: whenever two auth invocations agree on those
three (and use the same key serialization routine), the compressed public key
they submit to the callback is identical and equals the serialization of the
seed hash of host, user id and secret, regardless of the challenge, the
callback URL, the options and the HTTP outcome. -/
theorem authFlow_key_depends_only_on_host_user_secret :
    ∀ (env₁ env₂ : Env) (u₁ u₂ : User) (host k1a k1b cba cbb : String)
      (o₁ o₂ : HandleLNURLOpts) (b₁ b₂ s₁ s₂ : List Nat),
      env₁.botToken = env₂.botToken → u₁.id = u₂.id →
      env₁.serializeCompressed = env₂.serializeCompressed →
      hexDecode k1a = some b₁ →
      env₁.sign (lnurlAuthSeedHash host u₁.id env₁.botToken) b₁ = .ok s₁ →
      hexDecode k1b = some b₂ →
      env₂.sign (lnurlAuthSeedHash host u₂.id env₂.botToken) b₂ = .ok s₂ →
      submittedAuthKey (authFlow env₁ u₁ host k1a cba o₁).1 =
        some (bytesToHex (env₁.serializeCompressed (lnurlAuthSeedHash host u₁.id env₁.botToken)))
      ∧ submittedAuthKey (authFlow env₁ u₁ host k1a cba o₁).1 =
          submittedAuthKey (authFlow env₂ u₂ host k1b cbb o₂).1 := by
  have key_eq : ∀ (env : Env) (u : User) (host k1 cb : String) (o : HandleLNURLOpts)
      (b s : List Nat), hexDecode k1 = some b →
      env.sign (lnurlAuthSeedHash host u.id env.botToken) b = .ok s →
      submittedAuthKey (authFlow env u host k1 cb o).1 =
        some (bytesToHex (env.serializeCompressed (lnurlAuthSeedHash host u.id env.botToken))) := by
    intro env u host k1 cb o b s hd hs
    simp only [authFlow, hd, hs]
    cases hc : env.authCallbackResult with
    | netError e => exact submittedAuthKey_cons_httpGet ..
    | response status body =>
      by_cases h3 : status ≥ 300
      · simp only [if_pos h3]; exact submittedAuthKey_cons_httpGet ..
      · by_cases h4 : body.status = "ERROR"
        · simp only [if_neg h3, if_pos h4]; exact submittedAuthKey_cons_httpGet ..
        · by_cases h5 : o.loginSilently
          · simp only [if_neg h3, if_neg h4, h5, if_pos]
            exact submittedAuthKey_cons_httpGet ..
          · simp only [if_neg h3, if_neg h4, h5, Bool.false_eq_true, if_neg,
              not_false_eq_true]
            exact submittedAuthKey_cons_httpGet ..
  intro env₁ env₂ u₁ u₂ host k1a k1b cba cbb o₁ o₂ b₁ b₂ s₁ s₂ hbt hid hser hda hsa hdb hsb
  refine ⟨key_eq env₁ u₁ host k1a cba o₁ b₁ s₁ hda hsa, ?_⟩
  rw [key_eq env₁ u₁ host k1a cba o₁ b₁ s₁ hda hsa,
    key_eq env₂ u₂ host k1b cbb o₂ b₂ s₂ hdb hsb, hbt, hid, hser]

/-- C2 witness: the amended theorem applied to two concrete invocations with
the same host, user and secret but different challenges, callbacks and
options. -/
theorem authFlow_key_depends_only_on_host_user_secret_witness :
    submittedAuthKey (authFlow baseEnv ⟨3⟩ "h.com" "00" "cba" ⟨1, true, none⟩).1 =
      some (bytesToHex (baseEnv.serializeCompressed (lnurlAuthSeedHash "h.com" 3 baseEnv.botToken)))
    ∧ submittedAuthKey (authFlow baseEnv ⟨3⟩ "h.com" "00" "cba" ⟨1, true, none⟩).1 =
        submittedAuthKey (authFlow baseEnv ⟨3⟩ "h.com" "ff" "cbb" ⟨2, false, some 5⟩).1 :=
  authFlow_key_depends_only_on_host_user_secret baseEnv baseEnv ⟨3⟩ ⟨3⟩ "h.com" "00" "ff"
    "cba" "cbb" ⟨1, true, none⟩ ⟨2, false, some 5⟩ [0] [255] [1] [1]
    rfl rfl rfl (by decide) rfl (by decide) rfl

/-! Claim C8: loginSilently only suppresses the success notification. -/

/-- C8: for every environment, flipping loginSilently leaves the outcome, the
HTTP submission of signature and key, and every error notification exactly
the same; on error paths the whole traces coincide, and the only possible
difference is the success notification plus tracking event at the end of the
loud variant. -/
theorem authFlow_loginSilently_frame :
    ∀ (env : Env) (u : User) (host k1 cb : String) (mid : Int) (thr : Option Int),
      let ft := authFlow env u host k1 cb ⟨mid, true, thr⟩
      let ff := authFlow env u host k1 cb ⟨mid, false, thr⟩
      ft.2 = ff.2
      ∧ ft.1.filter isHttpGetEvent = ff.1.filter isHttpGetEvent
      ∧ ft.1.filter isErrorNotif = ff.1.filter isErrorNotif
      ∧ (∀ st, ft.2 = .errored st → ft.1 = ff.1) := by
  intro env u host k1 cb mid thr
  cases hd : hexDecode k1 with
  | none => simp [authFlow, hd]
  | some b =>
    cases hs : env.sign (lnurlAuthSeedHash host u.id env.botToken) b with
    | error e => simp [authFlow, hd, hs]
    | ok sg =>
      cases hc : env.authCallbackResult with
      | netError e => simp [authFlow, hd, hs, hc]
      | response status body =>
        by_cases h3 : status ≥ 300
        · simp [authFlow, hd, hs, hc, h3]
        · by_cases h4 : body.status = "ERROR"
          · simp [authFlow, hd, hs, hc, h3, h4]
          · simp [authFlow, hd, hs, hc, h3, h4, isHttpGetEvent, isErrorNotif,
              isErrorNotifPayload, List.filter]

/-- C8 witness: the frame theorem applied to a concrete auth environment. -/
theorem authFlow_loginSilently_frame_witness :
    let ft := authFlow baseEnv ⟨3⟩ "h.com" "00" "cb" ⟨1, true, none⟩
    let ff := authFlow baseEnv ⟨3⟩ "h.com" "00" "cb" ⟨1, false, none⟩
    ft.2 = ff.2
    ∧ ft.1.filter isHttpGetEvent = ff.1.filter isHttpGetEvent
    ∧ ft.1.filter isErrorNotif = ff.1.filter isErrorNotif
    ∧ (∀ st, ft.2 = .errored st → ft.1 = ff.1) :=
  authFlow_loginSilently_frame baseEnv ⟨3⟩ "h.com" "00" "cb" 1 none

/-! Claim C1: invalid second stage invoices are rejected before payment. -/

/-- C1: whenever the invoice returned by the pay callback decodes
successfully but its description hash is not the lowercase hex SHA-256 of the
metadata string, or its millisatoshi amount is not the requested amount, the
settlement flow ends in an errored outcome with exactly one user
notification, and the payment capability is never invoked (the trace holds
no payInvoice event). -/
theorem lnurlpay_invalid_invoice_rejected (env : Env) (u : User) (msats : Int)
    (callback metadata lnurltext : String) (messageId : Int) (inv : Invoice)
    (hdec : env.decodepayResult = .ok inv)
    (hbad : inv.descriptionHash ≠ calculateHash metadata ∨ inv.msatoshi ≠ msats) :
    (∃ st, (lnurlpayFetchInvoiceAndPay env u msats callback metadata lnurltext messageId).2
        = .errored st)
    ∧ notifCount
        (lnurlpayFetchInvoiceAndPay env u msats callback metadata lnurltext messageId).1 = 1
    ∧ (lnurlpayFetchInvoiceAndPay env u msats callback metadata lnurltext messageId).1.all
        (fun e => !isPayInvoiceEvent e) = true := by
  cases hc : env.payCallbackResult with
  | netError e =>
    simp [lnurlpayFetchInvoiceAndPay, hc, notifCount, isUserNotif, List.filter,
      isPayInvoiceEvent]
  | response status res =>
    by_cases h3 : status ≥ 300
    · simp [lnurlpayFetchInvoiceAndPay, hc, h3, notifCount, isUserNotif, List.filter,
        isPayInvoiceEvent]
    · by_cases h4 : res.status = "ERROR"
      · simp [lnurlpayFetchInvoiceAndPay, hc, h3, h4, notifCount, isUserNotif, List.filter,
          isPayInvoiceEvent]
      · by_cases h5 : inv.descriptionHash = calculateHash metadata
        · have h6 : inv.msatoshi ≠ msats := by
            rcases hbad with hb | hb
            · exact absurd h5 hb
            · exact hb
          simp [lnurlpayFetchInvoiceAndPay, hc, h3, h4, hdec, h5, h6, notifCount,
            isUserNotif, List.filter, isPayInvoiceEvent]
        · simp [lnurlpayFetchInvoiceAndPay, hc, h3, h4, hdec, h5, notifCount,
            isUserNotif, List.filter, isPayInvoiceEvent]

/-- C1 witness: a callback answering with a decodable invoice whose
description hash is not the hash of the metadata; the flow errors with one
notification and never submits a payment. -/
theorem lnurlpay_invalid_invoice_rejected_witness :
    (∃ st, (lnurlpayFetchInvoiceAndPay
        { baseEnv with decodepayResult := .ok ⟨1000, "deadbeef", "ph123456"⟩ }
        ⟨9⟩ 1000 "cb" "meta" "lnurltext" 5).2 = .errored st)
    ∧ notifCount (lnurlpayFetchInvoiceAndPay
        { baseEnv with decodepayResult := .ok ⟨1000, "deadbeef", "ph123456"⟩ }
        ⟨9⟩ 1000 "cb" "meta" "lnurltext" 5).1 = 1
    ∧ (lnurlpayFetchInvoiceAndPay
        { baseEnv with decodepayResult := .ok ⟨1000, "deadbeef", "ph123456"⟩ }
        ⟨9⟩ 1000 "cb" "meta" "lnurltext" 5).1.all
        (fun e => !isPayInvoiceEvent e) = true :=
  lnurlpay_invalid_invoice_rejected
    { baseEnv with decodepayResult := .ok ⟨1000, "deadbeef", "ph123456"⟩ }
    ⟨9⟩ 1000 "cb" "meta" "lnurltext" 5 ⟨1000, "deadbeef", "ph123456"⟩ rfl
    (.inl (by decide))

/-! Claim C9: document notification before success action notification. -/

/-- C9: in the settlement confirmation task, when the invoice carried a
success action, the metadata document notification occupies an earlier trace
position than the success action notification, and when the aes decipher
fails its error appears as the decipher error field of that success
notification while the document notification is still present. -/
theorem settlement_document_before_success_action
    (env : Env) (u : User) (msats : Int) (callback metadata lnurltext : String)
    (messageId : Int) (status : Nat) (res : LNURLPayResponse2) (inv : Invoice)
    (hash preimage : String) (sa : SuccessAction)
    (hresp : env.payCallbackResult = .response status res)
    (hst : status < 300) (hok : res.status ≠ "ERROR")
    (hdec : env.decodepayResult = .ok inv)
    (hhash : inv.descriptionHash = calculateHash metadata)
    (hamt : inv.msatoshi = msats)
    (hpay : env.payInvoiceResult = .ok hash)
    (hconf : env.confirmation = some preimage)
    (hsa : res.successAction = some sa) :
    ∃ i j, i < j
      ∧ (lnurlpayFetchInvoiceAndPay env u msats callback metadata lnurltext messageId).1.get? i
          = some (Event.sendDocument (env.lnurlEncode lnurltext ++ ".json") metadata
              ((env.parseURLHost callback).getD "") (env.lnurlEncode lnurltext)
              inv.paymentHash (inv.paymentHash.take 5))
      ∧ (lnurlpayFetchInvoiceAndPay env u msats callback metadata lnurltext messageId).1.get? j
          = some (Event.notifyAsReply
              (.paySuccess ((env.parseURLHost callback).getD "")
                (successActionResult env sa (hexDecodeLoose preimage)).1 sa.url
                (successActionResult env sa (hexDecodeLoose preimage)).2) messageId)
      ∧ (∀ e, sa.tag = "aes" → env.decipher (hexDecodeLoose preimage) = .error e →
          (successActionResult env sa (hexDecodeLoose preimage)).2 = some e) := by
  have hge : ¬ status ≥ 300 := by omega
  have htr : (lnurlpayFetchInvoiceAndPay env u msats callback metadata lnurltext messageId).1
      = [Event.httpGet callback [("amount", toString msats)],
         Event.sendProcessing res.pr,
         Event.payInvoice res.pr,
         Event.deleteMessage env.sendMessageId,
         Event.waitPayment hash,
         Event.sendDocument (env.lnurlEncode lnurltext ++ ".json") metadata
           ((env.parseURLHost callback).getD "") (env.lnurlEncode lnurltext)
           inv.paymentHash (inv.paymentHash.take 5),
         Event.sleepSeconds 2,
         Event.notifyAsReply
           (.paySuccess ((env.parseURLHost callback).getD "")
             (successActionResult env sa (hexDecodeLoose preimage)).1 sa.url
             (successActionResult env sa (hexDecodeLoose preimage)).2) messageId] := by
    simp only [lnurlpayFetchInvoiceAndPay, lnurlpayConfirmationTask, hresp, hdec, hpay,
      hconf, hsa, if_neg hge, if_neg hok,
      if_neg (show ¬(inv.descriptionHash ≠ calculateHash metadata) by simp [hhash]),
      if_neg (show ¬(inv.msatoshi ≠ msats) by simp [hamt]),
      List.cons_append, List.nil_append]
  refine ⟨5, 7, by omega, by rw [htr]; rfl, by rw [htr]; rfl, ?_⟩
  intro e htag herr
  simp [successActionResult, htag, herr]

/-- Environment of the C9 witness: a full settlement with an aes success
action whose decipher fails. -/
def c9Env : Env :=
  { baseEnv with
      payCallbackResult := .response 200 ⟨"OK", "", "pr1", some ⟨"aes", "", "", "u.rl"⟩⟩,
      decodepayResult := .ok ⟨1000, calculateHash "meta", "ph123456"⟩,
      decipher := fun _ => .error "bad mac" }

/-- C9 witness: the theorem applied to that settlement; the document event
precedes the success notification, which carries the decipher error. -/
theorem settlement_document_before_success_action_witness :
    ∃ i j, i < j
      ∧ (lnurlpayFetchInvoiceAndPay c9Env ⟨9⟩ 1000 "cb" "meta" "lnurltext" 5).1.get? i
          = some (Event.sendDocument (c9Env.lnurlEncode "lnurltext" ++ ".json") "meta"
              ((c9Env.parseURLHost "cb").getD "") (c9Env.lnurlEncode "lnurltext")
              "ph123456" ("ph123456".take 5))
      ∧ (lnurlpayFetchInvoiceAndPay c9Env ⟨9⟩ 1000 "cb" "meta" "lnurltext" 5).1.get? j
          = some (Event.notifyAsReply
              (.paySuccess ((c9Env.parseURLHost "cb").getD "")
                (successActionResult c9Env ⟨"aes", "", "", "u.rl"⟩ (hexDecodeLoose "00ff")).1
                "u.rl"
                (successActionResult c9Env ⟨"aes", "", "", "u.rl"⟩ (hexDecodeLoose "00ff")).2)
              5)
      ∧ (∀ e, ("aes" : String) = "aes" →
          c9Env.decipher (hexDecodeLoose "00ff") = .error e →
          (successActionResult c9Env ⟨"aes", "", "", "u.rl"⟩ (hexDecodeLoose "00ff")).2
            = some e) :=
  settlement_document_before_success_action c9Env ⟨9⟩ 1000 "cb" "meta" "lnurltext" 5
    200 ⟨"OK", "", "pr1", some ⟨"aes", "", "", "u.rl"⟩⟩
    ⟨1000, calculateHash "meta", "ph123456"⟩ "ffffaaaa" "00ff" ⟨"aes", "", "", "u.rl"⟩
    rfl (by omega) (by decide) rfl rfl rfl rfl rfl rfl

/-! Claim C3: resolving delivers to every actively receiving waiter and
clears the registry entry. -/

theorem lookupHash_removeHash (hash : String) (reg : List (String × List Nat)) :
    lookupHash hash (removeHash hash reg) = none := by
  induction reg with
  | nil => rfl
  | cons p l ih =>
    by_cases hp : p.1 = hash
    · simpa [removeHash, hp] using ih
    · simpa [removeHash, lookupHash, hp] using ih

theorem lookupHash_appendWaiter (hash : String) (n : Nat) (reg : List (String × List Nat)) :
    lookupHash hash (appendWaiter hash n reg)
      = (lookupHash hash reg).map (fun l => l ++ [n]) := by
  induction reg with
  | nil => rfl
  | cons p l ih =>
    by_cases hp : p.1 = hash
    · simp [appendWaiter, lookupHash, hp]
    · simpa [appendWaiter, lookupHash, hp] using ih

theorem lookupHash_append_absent (hash : String) (reg : List (String × List Nat))
    (l : List Nat) (h : lookupHash hash reg = none) :
    lookupHash hash (reg ++ [(hash, l)]) = some l := by
  induction reg with
  | nil => simp [lookupHash]
  | cons p t ih =>
    by_cases hp : p.1 = hash
    · simp [lookupHash, hp] at h
    · simp only [lookupHash, hp, if_neg, if_false, not_false_eq_true] at h
      simpa [lookupHash, hp] using ih h

theorem lookupHash_after_wait (hash : String) (s : BrokerState) :
    lookupHash hash (waitPaymentSuccess hash s).2.registry
      = some (((lookupHash hash s.registry).getD []) ++ [s.nextId]) := by
  cases h : lookupHash hash s.registry with
  | some ids => simp [waitPaymentSuccess, h, lookupHash_appendWaiter]
  | none => simp [waitPaymentSuccess, h, lookupHash_append_absent hash s.registry _ h]

theorem applyReceiving_registry (b : Bool) (wid : Nat) (s : BrokerState) :
    (applyReceiving b wid s).registry = s.registry := by
  cases b <;> rfl

theorem applyReceiving_waiters_ne (b : Bool) (wid : Nat) (s : BrokerState) (i : Nat)
    (h : i ≠ wid) : (applyReceiving b wid s).waiters i = s.waiters i := by
  cases b <;> simp [applyReceiving, startReceiving, h]

theorem applyReceiving_waiters_self (b : Bool) (wid : Nat) (s : BrokerState) :
    (applyReceiving b wid s).waiters wid =
      if b then (s.waiters wid).map (fun w => { w with receiving := true })
      else s.waiters wid := by
  cases b <;> simp [applyReceiving, startReceiving]

theorem waitPaymentSuccess_waiters (hash : String) (s : BrokerState) (i : Nat) :
    (waitPaymentSuccess hash s).2.waiters i
      = if i = s.nextId then some { receiving := false, received := none }
        else s.waiters i := rfl

/-- C3: registering two waiters for a hash and then resolving that hash once
delivers the preimage to each of the two handles whose owner is actively
receiving at resolution time, and afterwards the registry holds no entry for
the hash, regardless of the receiving states. -/
theorem broker_two_waiters_resolve (hash preimage : String) (s0 : BrokerState)
    (r1 r2 : Bool) :
    let w1 := waitPaymentSuccess hash s0
    let w2 := waitPaymentSuccess hash w1.2
    let s3 := applyReceiving r1 w1.1 (applyReceiving r2 w2.1 w2.2)
    let s4 := resolveWaitingPaymentSuccess hash preimage s3
    (r1 = true → s4.waiters w1.1 = some { receiving := false, received := some preimage })
    ∧ (r2 = true → s4.waiters w2.1 = some { receiving := false, received := some preimage })
    ∧ lookupHash hash s4.registry = none := by
  dsimp only
  have hne : s0.nextId ≠ s0.nextId + 1 := by omega
  simp only [show (waitPaymentSuccess hash s0).1 = s0.nextId from rfl,
    show (waitPaymentSuccess hash (waitPaymentSuccess hash s0).2).1 = s0.nextId + 1 from rfl]
  have hreg3 : lookupHash hash
      (applyReceiving r1 s0.nextId
        (applyReceiving r2 (s0.nextId + 1)
          (waitPaymentSuccess hash (waitPaymentSuccess hash s0).2).2)).registry
      = some ((((lookupHash hash s0.registry).getD []) ++ [s0.nextId]) ++ [s0.nextId + 1]) := by
    rw [applyReceiving_registry, applyReceiving_registry]
    have h2 := lookupHash_after_wait hash (waitPaymentSuccess hash s0).2
    rw [lookupHash_after_wait hash s0] at h2
    simpa [show (waitPaymentSuccess hash s0).2.nextId = s0.nextId + 1 from rfl] using h2
  have hw2waiters1 :
      (waitPaymentSuccess hash (waitPaymentSuccess hash s0).2).2.waiters s0.nextId
      = some { receiving := false, received := none } := by
    rw [waitPaymentSuccess_waiters,
      show (waitPaymentSuccess hash s0).2.nextId = s0.nextId + 1 from rfl, if_neg hne,
      waitPaymentSuccess_waiters, if_pos rfl]
  have hw2waiters2 :
      (waitPaymentSuccess hash (waitPaymentSuccess hash s0).2).2.waiters (s0.nextId + 1)
      = some { receiving := false, received := none } := by
    rw [waitPaymentSuccess_waiters,
      show (waitPaymentSuccess hash s0).2.nextId = s0.nextId + 1 from rfl, if_pos rfl]
  have hs3w1 : (applyReceiving r1 s0.nextId
      (applyReceiving r2 (s0.nextId + 1)
        (waitPaymentSuccess hash (waitPaymentSuccess hash s0).2).2)).waiters s0.nextId
      = some { receiving := r1, received := none } := by
    rw [applyReceiving_waiters_self, applyReceiving_waiters_ne r2 _ _ _ hne, hw2waiters1]
    cases r1 <;> simp
  have hs3w2 : (applyReceiving r1 s0.nextId
      (applyReceiving r2 (s0.nextId + 1)
        (waitPaymentSuccess hash (waitPaymentSuccess hash s0).2).2)).waiters (s0.nextId + 1)
      = some { receiving := r2, received := none } := by
    rw [applyReceiving_waiters_ne r1 _ _ _ (Ne.symm hne), applyReceiving_waiters_self,
      hw2waiters2]
    cases r2 <;> simp
  refine ⟨?_, ?_, ?_⟩
  · intro hr1
    subst hr1
    simp only [resolveWaitingPaymentSuccess, hreg3]
    rw [if_pos (show s0.nextId ∈
      (((lookupHash hash s0.registry).getD []) ++ [s0.nextId]) ++ [s0.nextId + 1] by simp)]
    rw [hs3w1]
    simp [deliverPreimage]
  · intro hr2
    subst hr2
    simp only [resolveWaitingPaymentSuccess, hreg3]
    rw [if_pos (show s0.nextId + 1 ∈
      (((lookupHash hash s0.registry).getD []) ++ [s0.nextId]) ++ [s0.nextId + 1] by simp)]
    rw [hs3w2]
    simp [deliverPreimage]
  · simp only [resolveWaitingPaymentSuccess, hreg3]
    exact lookupHash_removeHash hash _

/-- C3 witness: the theorem applied to the empty broker with both owners
actively receiving. -/
theorem broker_two_waiters_resolve_witness :
    let w1 := waitPaymentSuccess "h1" emptyBroker
    let w2 := waitPaymentSuccess "h1" w1.2
    let s3 := applyReceiving true w1.1 (applyReceiving true w2.1 w2.2)
    let s4 := resolveWaitingPaymentSuccess "h1" "aabb" s3
    (true = true → s4.waiters w1.1 = some { receiving := false, received := some "aabb" })
    ∧ (true = true → s4.waiters w2.1 = some { receiving := false, received := some "aabb" })
    ∧ lookupHash "h1" s4.registry = none :=
  broker_two_waiters_resolve "h1" "aabb" emptyBroker true true

/-! Claim C5: one notification per error path. -/

theorem notifCount_cons (e : Event) (tr : List Event) :
    notifCount (e :: tr) = (if isUserNotif e then 1 else 0) + notifCount tr := by
  by_cases hE : isUserNotif e <;>
    simp [notifCount, List.filter_cons, hE, Nat.add_comm]

theorem settlement_errored_count (env : Env) (u : User) (msats : Int)
    (cb meta l : String) (mid : Int) (st : ErrStage)
    (h : (lnurlpayFetchInvoiceAndPay env u msats cb meta l mid).2 = .errored st) :
    notifCount (lnurlpayFetchInvoiceAndPay env u msats cb meta l mid).1 = 1
    ∧ st ≠ .promptSendFailure := by
  cases hc : env.payCallbackResult with
  | netError e =>
    simp only [lnurlpayFetchInvoiceAndPay, hc] at h ⊢
    refine ⟨by simp [notifCount, isUserNotif, List.filter], ?_⟩
    cases Outcome.errored.inj h
    decide
  | response status res =>
    by_cases h3 : status ≥ 300
    · simp only [lnurlpayFetchInvoiceAndPay, hc, if_pos h3] at h ⊢
      refine ⟨by simp [notifCount, isUserNotif, List.filter], ?_⟩
      cases Outcome.errored.inj h
      decide
    · by_cases h4 : res.status = "ERROR"
      · simp only [lnurlpayFetchInvoiceAndPay, hc, if_neg h3, if_pos h4] at h ⊢
        refine ⟨by simp [notifCount, isUserNotif, List.filter], ?_⟩
        cases Outcome.errored.inj h
        decide
      · cases hdec : env.decodepayResult with
        | error e =>
          simp only [lnurlpayFetchInvoiceAndPay, hc, if_neg h3, if_neg h4, hdec] at h ⊢
          refine ⟨by simp [notifCount, isUserNotif, List.filter], ?_⟩
          cases Outcome.errored.inj h
          decide
        | ok inv =>
          by_cases h5 : inv.descriptionHash ≠ calculateHash meta
          · simp only [lnurlpayFetchInvoiceAndPay, hc, if_neg h3, if_neg h4, hdec,
              if_pos h5] at h ⊢
            refine ⟨by simp [notifCount, isUserNotif, List.filter], ?_⟩
            cases Outcome.errored.inj h
            decide
          · by_cases h6 : inv.msatoshi ≠ msats
            · simp only [lnurlpayFetchInvoiceAndPay, hc, if_neg h3, if_neg h4, hdec,
                if_neg h5, if_pos h6] at h ⊢
              refine ⟨by simp [notifCount, isUserNotif, List.filter], ?_⟩
              cases Outcome.errored.inj h
              decide
            · cases hpay : env.payInvoiceResult with
              | error e =>
                simp only [lnurlpayFetchInvoiceAndPay, hc, if_neg h3, if_neg h4, hdec,
                  if_neg h5, if_neg h6, hpay] at h ⊢
                refine ⟨by simp [notifCount, isUserNotif, List.filter], ?_⟩
                cases Outcome.errored.inj h
                decide
              | ok hsh =>
                simp only [lnurlpayFetchInvoiceAndPay, hc, if_neg h3, if_neg h4, hdec,
                  if_neg h5, if_neg h6, hpay] at h
                simp at h

theorem authFlow_errored_count (env : Env) (u : User) (host k1 cb : String)
    (opts : HandleLNURLOpts) (st : ErrStage)
    (h : (authFlow env u host k1 cb opts).2 = .errored st) :
    notifCount (authFlow env u host k1 cb opts).1 = 1 ∧ st ≠ .promptSendFailure := by
  cases hd : hexDecode k1 with
  | none =>
    simp only [authFlow, hd] at h ⊢
    refine ⟨by simp [notifCount, isUserNotif, List.filter], ?_⟩
    cases Outcome.errored.inj h
    decide
  | some b =>
    cases hs : env.sign (lnurlAuthSeedHash host u.id env.botToken) b with
    | error e =>
      simp only [authFlow, hd, hs] at h ⊢
      refine ⟨by simp [notifCount, isUserNotif, List.filter], ?_⟩
      cases Outcome.errored.inj h
      decide
    | ok sg =>
      cases hc : env.authCallbackResult with
      | netError e =>
        simp only [authFlow, hd, hs, hc] at h ⊢
        refine ⟨by simp [notifCount, isUserNotif, List.filter], ?_⟩
        cases Outcome.errored.inj h
        decide
      | response status body =>
        by_cases h3 : status ≥ 300
        · simp only [authFlow, hd, hs, hc, if_pos h3] at h ⊢
          refine ⟨by simp [notifCount, isUserNotif, List.filter], ?_⟩
          cases Outcome.errored.inj h
          decide
        · by_cases h4 : body.status = "ERROR"
          · simp only [authFlow, hd, hs, hc, if_neg h3, if_pos h4] at h ⊢
            refine ⟨by simp [notifCount, isUserNotif, List.filter], ?_⟩
            cases Outcome.errored.inj h
            decide
          · by_cases h5 : opts.loginSilently
            · simp only [authFlow, hd, hs, hc, if_neg h3, if_neg h4, h5, if_pos] at h
              simp at h
            · simp only [authFlow, hd, hs, hc, if_neg h3, if_neg h4, h5,
                Bool.false_eq_true, if_false] at h
              simp at h

theorem withdrawFlow_errored_count (env : Env) (cb cbh k1 : String) (st : ErrStage)
    (h : (withdrawFlow env cb cbh k1).2 = .errored st) :
    notifCount (withdrawFlow env cb cbh k1).1 = 1 ∧ st ≠ .promptSendFailure := by
  cases hm : env.makeInvoiceResult with
  | error e =>
    simp only [withdrawFlow, hm] at h ⊢
    refine ⟨by simp [notifCount, isUserNotif, List.filter], ?_⟩
    cases Outcome.errored.inj h
    decide
  | ok bolt11 =>
    cases hc : env.withdrawCallbackResult with
    | netError e =>
      simp only [withdrawFlow, hm, hc] at h ⊢
      refine ⟨by simp [notifCount, isUserNotif, List.filter], ?_⟩
      cases Outcome.errored.inj h
      decide
    | response status body =>
      by_cases h3 : status ≥ 300
      · simp only [withdrawFlow, hm, hc, if_pos h3] at h ⊢
        refine ⟨by simp [notifCount, isUserNotif, List.filter], ?_⟩
        cases Outcome.errored.inj h
        decide
      · by_cases h4 : body.status = "ERROR"
        · simp only [withdrawFlow, hm, hc, if_neg h3, if_pos h4] at h ⊢
          refine ⟨by simp [notifCount, isUserNotif, List.filter], ?_⟩
          cases Outcome.errored.inj h
          decide
        · simp only [withdrawFlow, hm, hc, if_neg h3, if_neg h4] at h
          simp at h

theorem payResponse1Flow_errored_count (env : Env) (u : User) (cb cbh : String)
    (minS maxS : Int) (meta : String) (img : Bool) (l : String)
    (opts : HandleLNURLOpts) (st : ErrStage)
    (h : (payResponse1Flow env u cb cbh minS maxS meta img l opts).2 = .errored st) :
    notifCount (payResponse1Flow env u cb cbh minS maxS meta img l opts).1 =
      (if st = .promptSendFailure then 0 else 1) := by
  by_cases hf : lnurlPayFastPath minS maxS opts.payWithoutPromptIf = true
  · simp only [payResponse1Flow, hf, if_pos] at h ⊢
    obtain ⟨hcount, hne⟩ := settlement_errored_count env u (lnurlPayFixedAmount minS maxS)
      cb meta l opts.messageId st h
    rw [if_neg hne, notifCount_cons]
    simp [isUserNotif, hcount]
  · simp only [Bool.not_eq_true] at hf
    cases ht : env.tgsendResult with
    | error e =>
      simp only [payResponse1Flow, hf, Bool.false_eq_true, if_false, ht] at h ⊢
      cases Outcome.errored.inj h
      simp [notifCount, isUserNotif, List.filter]
    | ok sentId =>
      simp only [payResponse1Flow, hf, Bool.false_eq_true, if_false, ht] at h
      simp at h

/-- C5 counterexample: with a variable amount pay offer and a chat transport
that fails to deliver the prompt, the flow ends in an error (the prompt send
failure) with zero notifications to the user: a silent abort, against the
claim that every error path ends in exactly one notification. -/
theorem handleLNURL_prompt_failure_silent :
    (handleLNURL
        { baseEnv with
            handleLNURLResult := .ok (.payResponse1 "cb" "host" 1000 2000 "meta" false),
            tgsendResult := .error "telegram down" }
        ⟨9⟩ "lnurlabc" ⟨5, false, none⟩).2 = .errored .promptSendFailure
    ∧ notifCount (handleLNURL
        { baseEnv with
            handleLNURLResult := .ok (.payResponse1 "cb" "host" 1000 2000 "meta" false),
            tgsendResult := .error "telegram down" }
        ⟨9⟩ "lnurlabc" ⟨5, false, none⟩).1 = 0 := by
  exact ⟨rfl, rfl⟩

/-- C5 amended: every error path of the LNURL flows except the prompt send
failure ends in exactly one notification to the user; the prompt send failure
aborts silently, with zero notifications (it is only logged). -/
theorem handleLNURL_errored_notification_count :
    ∀ (env : Env) (u : User) (lnurltext : String) (opts : HandleLNURLOpts) (st : ErrStage),
      (handleLNURL env u lnurltext opts).2 = .errored st →
      notifCount (handleLNURL env u lnurltext opts).1 =
        (if st = .promptSendFailure then 0 else 1) := by
  intro env u lnurltext opts st h
  cases he : env.handleLNURLResult with
  | error fe =>
    cases fe with
    | lnurlErrorResponse host reason =>
      simp only [handleLNURL, he] at h ⊢
      cases Outcome.errored.inj h
      simp [notifCount, isUserNotif, List.filter]
    | generic msg =>
      simp only [handleLNURL, he] at h ⊢
      cases Outcome.errored.inj h
      simp [notifCount, isUserNotif, List.filter]
  | ok params =>
    cases params with
    | authParams host k1 callback =>
      simp only [handleLNURL, he] at h ⊢
      obtain ⟨hcount, hne⟩ := authFlow_errored_count env u host k1 callback opts st h
      rw [if_neg hne, hcount]
    | withdrawResponse callback callbackHost k1 maxW desc =>
      simp only [handleLNURL, he] at h ⊢
      obtain ⟨hcount, hne⟩ := withdrawFlow_errored_count env callback callbackHost k1 st h
      rw [if_neg hne, hcount]
    | payResponse1 callback callbackHost minS maxS meta img =>
      simp only [handleLNURL, he] at h ⊢
      exact payResponse1Flow_errored_count env u callback callbackHost minS maxS meta img
        lnurltext opts st h
    | unsupported =>
      simp only [handleLNURL, he] at h ⊢
      cases Outcome.errored.inj h
      simp [notifCount, isUserNotif, List.filter]

/-- C5 witness: the amended theorem applied to a concrete failing fetch,
which notifies exactly once. -/
theorem handleLNURL_errored_notification_count_witness :
    notifCount (handleLNURL
        { baseEnv with handleLNURLResult := .error (.generic "no route") }
        ⟨9⟩ "lnurlabc" ⟨5, false, none⟩).1 =
      (if ErrStage.fetchFailure = .promptSendFailure then 0 else 1) :=
  handleLNURL_errored_notification_count
    { baseEnv with handleLNURLResult := .error (.generic "no route") }
    ⟨9⟩ "lnurlabc" ⟨5, false, none⟩ .fetchFailure rfl

end Lntxbot
